import Mathlib

/-!
Verification of the MeteorGuard Impact Visualization & Orchestration Core
(`src/frontend/src/App.tsx`): the geodesic circle generator `circle`, the
overlay layer derivation `layers`, and the two request-orchestration
pipelines (`runSim` and the candidate-search handler), shallowly embedded
over the reals with explicit state passing.
-/

namespace MeteorGuard

/-- Earth radius in meters: `const R = 6378137` in `circle`. -/
def R : ℝ := 6378137

/-- One loop iteration of `circle` in App.tsx (lines 16-23): the i-th
vertex placed at angle `θ = i/steps · 2π` using the equirectangular
(flat-earth) conversion of the local offsets `dx`, `dy` into degree
deltas `dLon`, `dLat`. -/
noncomputable def circleVertex (center : ℝ × ℝ) (radiusMeters : ℝ)
    (steps : ℕ) (i : ℕ) : ℝ × ℝ :=
  let lon := center.1
  let lat := center.2
  let theta := ((i : ℝ) / (steps : ℝ)) * (2 * Real.pi)
  let dx := radiusMeters * Real.cos theta
  let dy := radiusMeters * Real.sin theta
  let dLon := dx / (R * Real.cos (lat * Real.pi / 180)) * 180 / Real.pi
  let dLat := dy / R * 180 / Real.pi
  (lon + dLon, lat + dLat)

/-- The ring generator `circle` of App.tsx (lines 12-26): `steps` vertices
around `center` followed by a repetition of the first vertex
(`coords.push(coords[0])`).  The function performs no validation of
`steps` and no latitude check; the GeoJSON `Feature` wrapper around the
coordinate list is constant and omitted.  In the source `steps`
defaults to 128. -/
noncomputable def circle (center : ℝ × ℝ) (radiusMeters : ℝ)
    (steps : ℕ) : List (ℝ × ℝ) :=
  let coords := (List.range steps).map (circleVertex center radiusMeters steps)
  coords ++ coords.take 1

/-- The flat-earth (equirectangular) metric the generator itself uses:
degree deltas scaled back to local meters at the reference latitude
`lat`, then the Euclidean length. -/
noncomputable def flatDist (lat : ℝ) (p q : ℝ × ℝ) : ℝ :=
  let dx := (q.1 - p.1) * Real.pi / 180 * (R * Real.cos (lat * Real.pi / 180))
  let dy := (q.2 - p.2) * Real.pi / 180 * R
  Real.sqrt (dx ^ 2 + dy ^ 2)

/-- `SimulationResult` of App.tsx (lines 28-33), with the fixed-key map
`overpressure_radii_m : {'1psi': number; '5psi': number}` embedded as
its two fields. -/
structure SimulationResult where
  regime : String
  e_kt : ℝ
  centerLat : ℝ
  centerLon : ℝ
  radius1psi : ℝ
  radius5psi : ℝ

/-- `PhaResult` of App.tsx (lines 35-42); optional fields become `Option`. -/
structure PhaResult where
  des : String
  name : Option String
  spkid : String
  diameter : Option ℝ
  albedo : Option ℝ
  pha : String

/-- The status union `'idle' | 'loading' | 'error'` used by both
pipelines. -/
inductive Status where
  | idle
  | loading
  | error
deriving DecidableEq, Repr

/-- The camera pose held in the `viewState` React state (lines 59-65). -/
structure ViewState where
  longitude : ℝ
  latitude : ℝ
  zoom : ℝ
  bearing : ℝ
  pitch : ℝ

/-- The React state of `App` relevant to the claims: the entry point
`center` (as `[lon, lat]`), both pipelines' stored data, statuses and
error messages, and the camera `viewState`. -/
structure AppState where
  center : ℝ × ℝ
  sim : Option SimulationResult
  simStatus : Status
  simError : Option String
  phaStatus : Status
  phaError : Option String
  phaResults : List PhaResult
  viewState : ViewState

/-- A JavaScript thrown value as the `catch` blocks see it: either an
`Error` object carrying a message, or anything else. -/
inductive Thrown where
  | errObj (message : String)
  | nonError

/-- `error instanceof Error ? error.message : 'Simulation failed.'`
(App.tsx line 138). -/
def simErrMessage (t : Thrown) : String :=
  match t with
  | .errObj m => m
  | .nonError => "Simulation failed."

/-- `error instanceof Error ? error.message : 'Search failed.'`
(App.tsx line 270). -/
def phaErrMessage (t : Thrown) : String :=
  match t with
  | .errObj m => m
  | .nonError => "Search failed."

/-- The synchronous prefix of `runSim` (lines 130-131):
`setSimStatus('loading'); setSimError(null)`.  No other state is
touched before the `await`. -/
def runSimStart (s : AppState) : AppState :=
  { s with simStatus := .loading, simError := none }

/-- The resumption of `runSim` when its remote call settles: on success
(lines 134-135) `setSim(data); setSimStatus('idle')`; on failure
(lines 137-138) `setSimStatus('error'); setSimError(...)`. -/
def runSimResolve (s : AppState) (resp : Except Thrown SimulationResult) :
    AppState :=
  match resp with
  | .ok data => { s with sim := some data, simStatus := .idle }
  | .error t => { s with simStatus := .error, simError := some (simErrMessage t) }

/-- The synchronous prefix of the candidate-search click handler
(lines 262-263): `setPhaStatus('loading'); setPhaError(null)`. -/
def phaStart (s : AppState) : AppState :=
  { s with phaStatus := .loading, phaError := none }

/-- The resumption of the candidate-search handler: on success
(lines 266-267) `setPhaResults(rows); setPhaStatus('idle')`; on failure
(lines 269-270) `setPhaStatus('error'); setPhaError(...)`. -/
def phaResolve (s : AppState) (resp : Except Thrown (List PhaResult)) :
    AppState :=
  match resp with
  | .ok rows => { s with phaResults := rows, phaStatus := .idle }
  | .error t => { s with phaStatus := .error, phaError := some (phaErrMessage t) }

/-- One overlay layer produced by the `layers` memo (lines 109-126):
its deck.gl id, the polygon ring wrapped in its feature collection, and
the styling colors. -/
structure Layer where
  id : String
  ring : List (ℝ × ℝ)
  lineColor : List ℕ
  fillColor : List ℕ

/-- The `layers` memo of App.tsx (lines 102-127): empty when `sim` is
null; otherwise exactly the two `GeoJsonLayer`s built from
`circle(ctr, sim.overpressure_radii_m['1psi'])` and
`circle(ctr, sim.overpressure_radii_m['5psi'])`, `steps` taking its
default 128. -/
noncomputable def layers (sim : Option SimulationResult) : List Layer :=
  match sim with
  | none => []
  | some s =>
    let ctr : ℝ × ℝ := (s.centerLon, s.centerLat)
    [ { id := "op-1psi",
        ring := circle ctr s.radius1psi 128,
        lineColor := [248, 113, 113, 200],
        fillColor := [248, 113, 113, 80] },
      { id := "op-5psi",
        ring := circle ctr s.radius5psi 128,
        lineColor := [251, 146, 60, 200],
        fillColor := [251, 146, 60, 80] } ]

/-- The layers rendered for a whole application state: the memo reads
only `sim` (its dependency array is `[sim]`). -/
noncomputable def layersOfState (s : AppState) : List Layer :=
  layers s.sim

/-- The initial camera pose of App.tsx (lines 59-65). -/
def initialView : ViewState :=
  { longitude := 77.5946, latitude := 12.9716, zoom := 8, bearing := 0, pitch := 0 }

/-- The initial application state: `center = [77.5946, 12.9716]`, no
result, both pipelines idle with no error, empty candidate list. -/
def initialState : AppState :=
  { center := (77.5946, 12.9716)
    sim := none
    simStatus := .idle
    simError := none
    phaStatus := .idle
    phaError := none
    phaResults := []
    viewState := initialView }

/-- A sample successful simulation payload, used to instantiate theorems
at concrete inputs. -/
def resA : SimulationResult :=
  { regime := "airburst-A", e_kt := 120, centerLat := 12.9716,
    centerLon := 77.5946, radius1psi := 2000, radius5psi := 800 }

/-- A second, distinct sample payload (different regime and center). -/
def resB : SimulationResult :=
  { regime := "airburst-B", e_kt := 450, centerLat := 20,
    centerLon := 10, radius1psi := 3000, radius5psi := 1200 }

/-- The initial state after a first successful simulation stored `resA`. -/
def stateWithResult : AppState :=
  { initialState with sim := some resA }

/-- `stateWithResult` after the camera was panned, zoomed, rotated and
tilted to a completely different pose; the stored result is the same. -/
def stateWithResultMoved : AppState :=
  { stateWithResult with viewState := ⟨0, 45, 3, 90, 30⟩ }

end MeteorGuard

namespace MeteorGuard

/-- C4: invoking the simulation pipeline from Idle or Error sets the
status to Loading synchronously; when the response then settles, the
status becomes Idle with the result stored on success, or Error
carrying the message on failure — the terminal state is only reached
from the intermediate Loading state produced by `runSimStart`. -/
theorem runSim_passes_through_loading (s : AppState)
    (_hs : s.simStatus = .idle ∨ s.simStatus = .error)
    (resp : Except Thrown SimulationResult) :
    (runSimStart s).simStatus = .loading ∧
    (∀ data, resp = .ok data →
      (runSimResolve (runSimStart s) resp).simStatus = .idle ∧
      (runSimResolve (runSimStart s) resp).sim = some data) ∧
    (∀ t, resp = .error t →
      (runSimResolve (runSimStart s) resp).simStatus = .error ∧
      (runSimResolve (runSimStart s) resp).simError = some (simErrMessage t)) := by
  refine ⟨rfl, ?_, ?_⟩ <;> rintro x rfl <;> exact ⟨rfl, rfl⟩

/-- Witness for C4 at the initial (Idle) state and a concrete success
response. -/
theorem runSim_passes_through_loading_witness :
    (runSimStart initialState).simStatus = .loading ∧
    (∀ data, (Except.ok resA : Except Thrown SimulationResult) = .ok data →
      (runSimResolve (runSimStart initialState) (.ok resA)).simStatus = .idle ∧
      (runSimResolve (runSimStart initialState) (.ok resA)).sim = some data) ∧
    (∀ t, (Except.ok resA : Except Thrown SimulationResult) = .error t →
      (runSimResolve (runSimStart initialState) (.ok resA)).simStatus = .error ∧
      (runSimResolve (runSimStart initialState) (.ok resA)).simError
        = some (simErrMessage t)) :=
  runSim_passes_through_loading initialState (Or.inl rfl) (.ok resA)

/-- C5: a failed simulation request sets status Error with a message and
leaves the stored SimulationResult unchanged; a failed candidate search
sets status Error with a message and leaves the candidate list
unchanged — neither failure path leaves the operation half-applied. -/
theorem failure_leaves_data_unchanged (s : AppState) (t u : Thrown) :
    (runSimResolve s (.error t)).sim = s.sim ∧
    (runSimResolve s (.error t)).simStatus = .error ∧
    (runSimResolve s (.error t)).simError = some (simErrMessage t) ∧
    (phaResolve s (.error u)).phaResults = s.phaResults ∧
    (phaResolve s (.error u)).phaStatus = .error ∧
    (phaResolve s (.error u)).phaError = some (phaErrMessage u) :=
  ⟨rfl, rfl, rfl, rfl, rfl, rfl⟩

/-- C6 counterexample: starting a new simulation request does NOT
discard the stored SimulationResult — at the moment the pipeline
re-enters Loading, the earlier result is still stored. -/
theorem runSimStart_retains_result_counterexample :
    (runSimStart stateWithResult).simStatus = .loading ∧
    (runSimStart stateWithResult).sim = some resA ∧
    some resA ≠ (none : Option SimulationResult) :=
  ⟨rfl, rfl, by simp⟩

/-- C6 amended: starting a new simulation request leaves the stored
SimulationResult unchanged; the result is only replaced — wholesale,
never merged — by the payload of a later successful response. -/
theorem runSimStart_preserves_result (s : AppState) (d : SimulationResult) :
    (runSimStart s).sim = s.sim ∧
    (runSimResolve s (.ok d)).sim = some d :=
  ⟨rfl, rfl⟩

/-- C9: the overlay polygon geometry is a function of the
SimulationResult alone — two application states with equal stored
results produce identical layer lists, whatever their ViewStates. -/
theorem layers_depend_only_on_sim (s₁ s₂ : AppState)
    (h : s₁.sim = s₂.sim) : layersOfState s₁ = layersOfState s₂ := by
  simp [layersOfState, h]

/-- Witness for C9: two states sharing the same result but with
different camera longitude, latitude, zoom, bearing and pitch render
the same layers. -/
theorem layers_depend_only_on_sim_witness :
    stateWithResult.sim = stateWithResultMoved.sim ∧
    stateWithResult.viewState.zoom ≠ stateWithResultMoved.viewState.zoom ∧
    layersOfState stateWithResult = layersOfState stateWithResultMoved :=
  ⟨rfl, by norm_num [stateWithResult, stateWithResultMoved, initialState, initialView],
   layers_depend_only_on_sim stateWithResult stateWithResultMoved rfl⟩

/-- C10: starting either pipeline synchronously resets its error message
to null in the same step in which its status enters Loading. -/
theorem start_clears_error (s : AppState) :
    (runSimStart s).simError = none ∧
    (runSimStart s).simStatus = .loading ∧
    (phaStart s).phaError = none ∧
    (phaStart s).phaStatus = .loading :=
  ⟨rfl, rfl, rfl, rfl⟩

theorem circle_length (center : ℝ × ℝ) (r : ℝ) (steps : ℕ)
    (h : 1 ≤ steps) : (circle center r steps).length = steps + 1 := by
  simp [circle]
  omega

theorem circle_getElem (center : ℝ × ℝ) (r : ℝ) (steps i : ℕ)
    (hi : i < steps) :
    (circle center r steps)[i]? = some (circleVertex center r steps i) := by
  simp [circle, List.getElem?_append, hi]

theorem circle_head_getLast (center : ℝ × ℝ) (r : ℝ) (steps : ℕ)
    (h : 1 ≤ steps) :
    (circle center r steps).head? = some (circleVertex center r steps 0) ∧
    (circle center r steps).getLast?
      = some (circleVertex center r steps 0) := by
  obtain ⟨m, rfl⟩ : ∃ m, steps = m + 1 := ⟨steps - 1, by omega⟩
  unfold circle
  rw [List.range_succ_eq_map]
  simp only [List.map_cons, List.take_succ_cons, List.take_zero]
  exact ⟨rfl, by rw [List.getLast?_concat]⟩

theorem circleVertex_zero_radius (center : ℝ × ℝ) (steps i : ℕ) :
    circleVertex center 0 steps i = center := by
  simp [circleVertex]

/-- The vertex at index `i` sits exactly at distance `r` from the center
under the generator's own equirectangular metric, provided the cosine
of the center latitude does not vanish (the division used to build
`dLon` is otherwise degenerate). -/
theorem flatDist_circleVertex (lon lat r : ℝ) (steps i : ℕ)
    (hr : 0 ≤ r) (hcos : Real.cos (lat * Real.pi / 180) ≠ 0) :
    flatDist lat (lon, lat) (circleVertex (lon, lat) r steps i) = r := by
  unfold flatDist circleVertex
  simp only
  set θ : ℝ := ((i : ℝ) / (steps : ℝ)) * (2 * Real.pi) with hθ
  have hR : (R : ℝ) ≠ 0 := by norm_num [R]
  have hπ : Real.pi ≠ 0 := Real.pi_ne_zero
  have hdx : (lon + r * Real.cos θ / (R * Real.cos (lat * Real.pi / 180))
        * 180 / Real.pi - lon) * Real.pi / 180
        * (R * Real.cos (lat * Real.pi / 180)) = r * Real.cos θ := by
    field_simp
    ring
  have hdy : (lat + r * Real.sin θ / R * 180 / Real.pi - lat)
        * Real.pi / 180 * R = r * Real.sin θ := by
    field_simp
    ring
  rw [hdx, hdy]
  have hsum : (r * Real.cos θ) ^ 2 + (r * Real.sin θ) ^ 2 = r ^ 2 := by
    have h1 : Real.sin θ ^ 2 + Real.cos θ ^ 2 = 1 := Real.sin_sq_add_cos_sq θ
    nlinarith [h1]
  rw [hsum, Real.sqrt_sq hr]

/-- C3: for `steps ≥ 3` and `r ≥ 0` the ring has exactly `steps + 1`
vertices, closes (first vertex equals last), every non-closing vertex
lies at distance exactly `r` from the center under the generator's own
flat-earth metric whenever the latitude cosine is nonzero (so in
particular within any relative tolerance for `r > 0`), and at `r = 0`
every vertex coincides with the center. -/
theorem circle_ring_spec (lon lat r : ℝ) (steps : ℕ)
    (hs : 3 ≤ steps) (hr : 0 ≤ r) :
    (circle (lon, lat) r steps).length = steps + 1 ∧
    (circle (lon, lat) r steps).head? = (circle (lon, lat) r steps).getLast? ∧
    (circle (lon, lat) r steps).head?.isSome = true ∧
    (Real.cos (lat * Real.pi / 180) ≠ 0 →
      ∀ i < steps, ∀ p, (circle (lon, lat) r steps)[i]? = some p →
        flatDist lat (lon, lat) p = r) ∧
    (r = 0 → ∀ p ∈ circle (lon, lat) r steps, p = (lon, lat)) := by
  have h1 : 1 ≤ steps := by omega
  obtain ⟨hhead, hlast⟩ := circle_head_getLast (lon, lat) r steps h1
  refine ⟨circle_length _ _ _ h1, hhead.trans hlast.symm, by rw [hhead]; rfl,
    ?_, ?_⟩
  · intro hcos i hi p hp
    rw [circle_getElem _ _ _ _ hi] at hp
    obtain rfl : p = circleVertex (lon, lat) r steps i := by
      exact (Option.some_injective _ hp).symm
    exact flatDist_circleVertex lon lat r steps i hr hcos
  · rintro rfl p hp
    unfold circle at hp
    rcases List.mem_append.1 hp with h | h
    · obtain ⟨j, _, rfl⟩ := List.mem_map.1 h
      exact circleVertex_zero_radius _ _ _
    · obtain ⟨j, _, rfl⟩ := List.mem_map.1 (List.mem_of_mem_take h)
      exact circleVertex_zero_radius _ _ _

/-- Witness for C3 at center `(0, 0)`, radius 1, 4 steps. -/
theorem circle_ring_spec_witness :
    (circle (0, 0) 1 4).length = 4 + 1 ∧
    (circle (0, 0) 1 4).head? = (circle (0, 0) 1 4).getLast? ∧
    (circle (0, 0) 1 4).head?.isSome = true ∧
    (Real.cos ((0 : ℝ) * Real.pi / 180) ≠ 0 →
      ∀ i < 4, ∀ p, (circle (0, 0) 1 4)[i]? = some p →
        flatDist 0 (0, 0) p = 1) ∧
    ((1 : ℝ) = 0 → ∀ p ∈ circle (0, 0) 1 4, p = (0, 0)) :=
  circle_ring_spec 0 0 1 4 (by norm_num) (by norm_num)

/-- C2: evaluation of the generator at the failing input `steps = 2`.
The code performs no validation: instead of failing with
InvalidArgument it returns an ordinary closed ring of 3 vertices. -/
theorem circle_steps_two_returns_ring :
    (circle (0, 0) 1000 2).length = 3 ∧
    (circle (0, 0) 1000 2).head? = (circle (0, 0) 1000 2).getLast? := by
  obtain ⟨hhead, hlast⟩ := circle_head_getLast (0, 0) 1000 2 (by norm_num)
  exact ⟨circle_length (0, 0) 1000 2 (by norm_num), hhead.trans hlast.symm⟩

/-- C8: evaluation of the generator at center latitude 89°, beyond the
85° safety threshold the spec calls for.  The call is not flagged in
any way: the return type has no error or warning channel, and the
generator produces an ordinary closed 129-vertex ring exactly as it
does at any safe latitude. -/
theorem circle_high_latitude_not_flagged :
    (circle (0, 89) 1000 128).length = 129 ∧
    (circle (0, 89) 1000 128).head? = (circle (0, 89) 1000 128).getLast? := by
  obtain ⟨hhead, hlast⟩ := circle_head_getLast (0, 89) 1000 128 (by norm_num)
  exact ⟨circle_length (0, 89) 1000 128 (by norm_num), hhead.trans hlast.symm⟩

/-- C7: the Overlay Renderer produces no polygon layers without a
SimulationResult; with one it produces exactly two ring layers, keyed
"op-1psi" and "op-5psi", whose rings come from the Geodesic Circle
Generator applied to the result's center and the radii stored under the
"1psi" and "5psi" keys of `overpressure_radii_m` (with the generator's
default 128 steps). -/
theorem layers_two_rings (sim : SimulationResult) :
    layers none = [] ∧
    (layers (some sim)).length = 2 ∧
    (layers (some sim)).map Layer.id = ["op-1psi", "op-5psi"] ∧
    (layers (some sim)).map Layer.ring
      = [circle (sim.centerLon, sim.centerLat) sim.radius1psi 128,
         circle (sim.centerLon, sim.centerLat) sim.radius5psi 128] :=
  ⟨rfl, rfl, rfl, rfl⟩

/-- C1: evaluation of the race at a concrete failing input.  Request A
is issued, then request B before A resolves; the responses arrive out
of order (B's first, A's second).  The code stores whichever response
arrived last — here A's payload — although B was the most recently
issued request, and the two payloads differ. -/
theorem race_last_arrival_wins :
    (runSimResolve (runSimResolve (runSimStart (runSimStart initialState))
        (.ok resB)) (.ok resA)).sim = some resA ∧ resA ≠ resB := by
  refine ⟨rfl, fun h => ?_⟩
  have hreg := congrArg SimulationResult.regime h
  simp only [resA, resB] at hreg
  exact absurd hreg (by decide)

end MeteorGuard
